import Mathlib

/-!
Shallow embedding of the Gyanika conversational-memory layer.

The embedded code:
* `PostgresMemory` in `postgres_memory.py`: fields `user_name`, `db_user_id`,
  `current_conversation_id`, `short_term_memory`, `_cached_memories`, and the
  operations `add_message`, `add_to_short_term`, `recall_memories`,
  `get_memory_context_prompt`.
* `GyanikaBrain.add_to_short_term` in `memory.py` (capacity 10, `pop(0)` eviction).
* The duplicate-transcription debounce of `on_user_transcribed` in `agent.py`.

Modelling conventions:
* The persistent `messages` table, restricted to the current user, is a list of
  `(conversation_id, Msg)` pairs in chronological (`created_at` ascending) order.
* Database availability for one call is a `DbStatus`: `down` models
  `get_db_connection()` returning `None`, `raises` models an exception thrown by
  the SQL inside the `try` block, `ok` models a successful round trip.
* Wall-clock inputs (`datetime.now().isoformat()`, `time.time()`) are explicit
  parameters (a `String` timestamp, a rational number of seconds).
* Every Python function here swallows its exceptions, so each model function is
  total; "no error is propagated" is reflected by the plain (non-`Except`)
  return types.
* `recall_memories` additionally returns a `Bool` recording whether the call
  issued a read against the store (reached the SQL inside the `try` block).
-/

namespace Gyanika

/-- Python `str.strip()`: remove leading and trailing whitespace.  Embedded as
a structural recursion over the character list (Lean's own `String.trim` is
byte-position based and does not reduce in the kernel). -/
def pyStrip (s : String) : String :=
  String.mk (((s.data.dropWhile Char.isWhitespace).reverse.dropWhile
    Char.isWhitespace).reverse)

/-- One row of the `messages` table: speaker role and message content. -/
structure Msg where
  role : String
  content : String
deriving DecidableEq, Repr

/-- One entry of the short-term memory list:
`{"user": ..., "agent": ..., "timestamp": ...}`. -/
structure Turn where
  user : String
  agent : String
  timestamp : String
deriving DecidableEq, Repr

/-- Outcome of one database interaction.
`down`: `get_db_connection()` returned `None`;
`raises`: a connection existed but the SQL raised;
`ok`: the call succeeded. -/
inductive DbStatus where
  | down
  | raises
  | ok
deriving DecidableEq, Repr

/-- The persistent message rows of one user, chronologically ordered,
each tagged with the id of the conversation it belongs to. -/
abbrev Store := List (String × Msg)

/-- The mutable state of one `PostgresMemory` instance. -/
structure PMState where
  user_name : String
  db_user_id : Option Nat
  current_conversation_id : Option String
  short_term_memory : List Turn
  cached_memories : Option String
deriving DecidableEq, Repr

/-- `PostgresMemory.__init__`: the in-memory fields after construction
(`short_term_memory = []`, `_cached_memories = None`); `user_name or user_id`
falls back to `user_id` when the name is absent or empty.  The database ids
obtained by `_ensure_user_exists` / `_start_conversation` are passed in. -/
def init_state (user_id : String) (user_name : Option String)
    (db_user_id : Option Nat) (conv : Option String) : PMState :=
  { user_name :=
      match user_name with
      | some n => if n = "" then user_id else n
      | none => user_id
    db_user_id := db_user_id
    current_conversation_id := conv
    short_term_memory := []
    cached_memories := none }

/-- `PostgresMemory.add_message`: inserts one row into `messages` tagged with
the current conversation, unless the connection is unavailable, the instance
has no current conversation, or the SQL raises (then it rolls back). -/
def add_message (status : DbStatus) (s : PMState) (store : Store)
    (role content : String) : Store :=
  match status, s.current_conversation_id with
  | .ok, some c => store ++ [(c, ⟨role, content⟩)]
  | _, _ => store

/-- The short-term list update inside `PostgresMemory.add_to_short_term`:
append the turn, then `self.short_term_memory = self.short_term_memory[-5:]`
whenever the length exceeds 5. -/
def pmBufferStep (stm : List Turn) (t : Turn) : List Turn :=
  let stm := stm ++ [t]
  if stm.length > 5 then stm.rtake 5 else stm

/-- `PostgresMemory.add_to_short_term`: update the short-term list, persist the
two messages (roles `user` and `assistant`), and set `_cached_memories = None`. -/
def add_to_short_term (status : DbStatus) (now : String) (s : PMState)
    (store : Store) (user_msg agent_msg : String) : PMState × Store :=
  let stm := pmBufferStep s.short_term_memory ⟨user_msg, agent_msg, now⟩
  let store := add_message status s store "user" user_msg
  let store := add_message status s store "assistant" agent_msg
  ({ s with short_term_memory := stm, cached_memories := none }, store)

/-- The messages of this user whose conversation differs from
`current_conversation_id or '00000000-…'`, in chronological order (the rows
the `WHERE c.user_id = %s AND c.id != %s` clause of `recall_memories`
ranges over). -/
def otherMsgs (s : PMState) (store : Store) : List Msg :=
  let cur := s.current_conversation_id.getD "00000000-0000-0000-0000-000000000000"
  (store.filter (fun p => p.1 ≠ cur)).map Prod.snd

/-- The rows returned by the SQL inside `recall_memories`: the other-session
messages ordered by `created_at DESC` with `LIMIT 30`. -/
def fetchPast (s : PMState) (store : Store) : List Msg :=
  (otherMsgs s store).reverse.take 30

/-- `content[:100] + "..." if len(content) > 100 else content`. -/
def truncate100 (content : String) : String :=
  if content.length > 100 then content.take 100 ++ "..." else content

/-- `"User" if msg['role'] == 'user' else "Gyanika"`. -/
def roleName (role : String) : String :=
  if role = "user" then "User" else "Gyanika"

/-- The bullet line `f"- **{role}**: {content}\n"` built for one past message. -/
def memoryLine (m : Msg) : String :=
  "- **" ++ roleName m.role ++ "**: " ++ truncate100 m.content ++ "\n"

/-- The `memory_text` accumulation loop of `recall_memories`: start from the
header and append one bullet line per message. -/
def formatMemories (name : String) (msgs : List Msg) : String :=
  msgs.foldl (fun acc m => acc ++ memoryLine m)
    ("## Brief History with " ++ name ++ "\n\n")

/-- `PostgresMemory.recall_memories`.  Returns the recalled text, the updated
state, and whether a read against the store was issued.  The `query` and
`limit` parameters of the Python function are accepted and never used. -/
def recall_memories (status : DbStatus) (s : PMState) (store : Store)
    (_query : Option String) : String × PMState × Bool :=
  match s.cached_memories with
  | some m => (m, s, false)
  | none =>
    match status with
    | .down => ("", s, false)
    | .raises =>
      if s.db_user_id.isNone then ("", s, false) else ("", s, true)
    | .ok =>
      if s.db_user_id.isNone then ("", s, false)
      else
        let past := fetchPast s store
        if past.isEmpty then ("", { s with cached_memories := some "" }, true)
        else
          let chrono := past.reverse.rtake 10
          let text := formatMemories s.user_name chrono
          (text, { s with cached_memories := some text }, true)

/-- `turn['user'][:80] + "..." if len(...) > 80 else ...` inside
`get_memory_context_prompt`. -/
def truncate80 (t : String) : String :=
  if t.length > 80 then t.take 80 ++ "..." else t

/-- The two bullet lines rendered for one short-term turn. -/
def shortTermLine (t : Turn) : String :=
  "- User: " ++ truncate80 t.user ++ "\n- Gyanika: " ++ truncate80 t.agent ++ "\n"

/-- The `short_term` block of `get_memory_context_prompt`: empty when the
short-term list is empty, otherwise a header plus bullet lines for the last 3
turns. -/
def shortTermBlock (s : PMState) : String :=
  if s.short_term_memory.isEmpty then ""
  else
    (s.short_term_memory.rtake 3).foldl (fun acc t => acc ++ shortTermLine t)
      "## Recent (Current Session)\n"

/-- `PostgresMemory.get_memory_context_prompt`: compose the short-term block
and the (possibly cached) recall text under a `# Memory for {user_name}`
header, stripped; empty when both parts are empty. -/
def get_memory_context_prompt (status : DbStatus) (s : PMState) (store : Store)
    (current_query : Option String) : String × PMState :=
  let short_term := shortTermBlock s
  let r := recall_memories status s store current_query
  let past_memories := r.1
  let s1 := r.2.1
  if past_memories ≠ "" ∨ short_term ≠ "" then
    (pyStrip ("# Memory for " ++ s1.user_name ++ "\n" ++ short_term ++ "\n"
        ++ past_memories), s1)
  else ("", s1)

/-- `GyanikaBrain.add_to_short_term` in `memory.py`: append the turn, then
`pop(0)` once if the length exceeds `max_short_term = 10`. -/
def gbBufferStep (stm : List Turn) (t : Turn) : List Turn :=
  let stm := stm ++ [t]
  if stm.length > 10 then stm.drop 1 else stm

/-- The fields of `conversation_context` used by the transcription debounce in
`agent.py`: the last processed transcript, its arrival time (seconds), and the
pending `user_msg`. -/
structure TransState where
  last_transcription : Option String
  last_transcription_time : ℚ
  user_msg : Option String
deriving DecidableEq, Repr

/-- The body of `on_user_transcribed` for a final transcript, up to the memory
recall: strip the transcript, drop it when empty, drop it when identical to
the previous transcript and arriving within 2 seconds, otherwise record it.
Returns the updated context and whether the transcript was accepted. -/
def on_user_transcribed (ctx : TransState) (transcript : String) (now : ℚ) :
    TransState × Bool :=
  let user_query := pyStrip transcript
  if user_query = "" then (ctx, false)
  else if ctx.last_transcription = some user_query ∧
      now - ctx.last_transcription_time < 2 then (ctx, false)
  else
    ({ last_transcription := some user_query
       last_transcription_time := now
       user_msg := some user_query }, true)

/-- Run a sequence of `add_to_short_term` calls on one instance. -/
def appendAll (status : DbStatus) (init : PMState × Store) (ts : List Turn) :
    PMState × Store :=
  ts.foldl (fun acc t => add_to_short_term status t.timestamp acc.1 acc.2 t.user t.agent) init

/-- `sub` occurs contiguously inside `s` (used to state the "output contains
a line with …" examples). -/
def containsStr (s sub : String) : Prop :=
  sub.data <:+: s.data

instance (s sub : String) : Decidable (containsStr s sub) :=
  inferInstanceAs (Decidable (sub.data <:+: s.data))

/-! ### List lemmas about `List.rtake` -/

lemma rtake_of_length_le {α : Type} {l : List α} {n : ℕ} (h : l.length ≤ n) :
    l.rtake n = l := by
  unfold List.rtake
  rw [Nat.sub_eq_zero_of_le h, List.drop_zero]

lemma length_rtake_le {α : Type} (l : List α) (n : ℕ) : (l.rtake n).length ≤ n := by
  unfold List.rtake
  rw [List.length_drop]
  omega

lemma rtake_append_rtake {α : Type} (l r : List α) (n : ℕ) :
    (l.rtake n ++ r).rtake n = (l ++ r).rtake n := by
  rw [List.rtake_eq_reverse_take_reverse (l.rtake n ++ r),
    List.rtake_eq_reverse_take_reverse (l ++ r)]
  congr 1
  rw [List.rtake_eq_reverse_take_reverse l, List.reverse_append, List.reverse_append,
    List.reverse_reverse, List.take_append_eq_append_take, List.take_append_eq_append_take]
  congr 1
  rw [List.take_take]
  congr 1
  simp only [List.length_reverse]
  omega

lemma rtake_rtake {α : Type} (l : List α) (m n : ℕ) (h : n ≤ m) :
    (l.rtake m).rtake n = l.rtake n := by
  rw [List.rtake_eq_reverse_take_reverse l m, List.rtake_eq_reverse_take_reverse,
    List.rtake_eq_reverse_take_reverse l n, List.reverse_reverse, List.take_take]
  congr 2
  omega

/-! ### The short-term buffer evolution -/

lemma pmBufferStep_rtake (l : List Turn) (t : Turn) :
    pmBufferStep (l.rtake 5) t = (l ++ [t]).rtake 5 := by
  unfold pmBufferStep
  by_cases h : (l.rtake 5 ++ [t]).length > 5
  · rw [if_pos h, rtake_append_rtake]
  · rw [if_neg h, ← rtake_append_rtake,
      rtake_of_length_le (by omega : (l.rtake 5 ++ [t]).length ≤ 5)]

lemma gbBufferStep_rtake (l : List Turn) (t : Turn) :
    gbBufferStep (l.rtake 10) t = (l ++ [t]).rtake 10 := by
  unfold gbBufferStep
  by_cases h : (l.rtake 10 ++ [t]).length > 10
  · rw [if_pos h]
    have h2 := length_rtake_le l 10
    have hlen : (l.rtake 10 ++ [t]).length = 11 := by
      rw [List.length_append] at h ⊢
      simp only [List.length_singleton] at h ⊢
      omega
    have hdrop : ∀ x : List Turn, x.length = 11 → x.drop 1 = x.rtake 10 := by
      intro x hx
      simp only [List.rtake, hx]
    rw [hdrop _ hlen, rtake_append_rtake]
  · rw [if_neg h, ← rtake_append_rtake,
      rtake_of_length_le (by omega : (l.rtake 10 ++ [t]).length ≤ 10)]

lemma foldl_pmBufferStep (done ts : List Turn) :
    ts.foldl pmBufferStep (done.rtake 5) = (done ++ ts).rtake 5 := by
  induction ts generalizing done with
  | nil => simp
  | cons t ts ih =>
    rw [List.foldl_cons, pmBufferStep_rtake, ih (done ++ [t])]
    simp

lemma foldl_gbBufferStep (done ts : List Turn) :
    ts.foldl gbBufferStep (done.rtake 10) = (done ++ ts).rtake 10 := by
  induction ts generalizing done with
  | nil => simp
  | cons t ts ih =>
    rw [List.foldl_cons, gbBufferStep_rtake, ih (done ++ [t])]
    simp

lemma appendAll_short_term (status : DbStatus) (s : PMState) (store : Store)
    (ts : List Turn) :
    (appendAll status (s, store) ts).1.short_term_memory
      = ts.foldl pmBufferStep s.short_term_memory := by
  induction ts generalizing s store with
  | nil => rfl
  | cons t ts ih =>
    simp only [appendAll, List.foldl_cons] at ih ⊢
    exact ih _ _

lemma foldl_pmBufferStep_nil (ts : List Turn) :
    ts.foldl pmBufferStep [] = ts.rtake 5 := by
  have h := foldl_pmBufferStep [] ts
  simpa using h

lemma foldl_gbBufferStep_nil (ts : List Turn) :
    ts.foldl gbBufferStep [] = ts.rtake 10 := by
  have h := foldl_gbBufferStep [] ts
  simpa using h

/-! ### Claim theorems -/

/-- **C1**: after every sequence of `add_to_short_term` calls on one fresh
memory instance, the short-term buffer equals the `N` most recently appended
turns in chronological (insertion) order, so its length never exceeds the
fixed capacity `N`; `N = 5` for `PostgresMemory.add_to_short_term` and
`N = 10` for `GyanikaBrain.add_to_short_term`; in particular, appending 12
turns into the capacity-10 buffer leaves exactly turns 3 through 12
(`List.drop 2` of the 12 appended turns). -/
theorem c1_short_term_buffer_invariant (status : DbStatus) (user_id : String)
    (user_name : Option String) (db : Option Nat) (conv : Option String)
    (store : Store) (ts : List Turn) :
    (appendAll status (init_state user_id user_name db conv, store) ts).1.short_term_memory
        = ts.rtake 5
    ∧ (appendAll status (init_state user_id user_name db conv, store) ts).1.short_term_memory.length
        ≤ 5
    ∧ ts.foldl gbBufferStep [] = ts.rtake 10
    ∧ (ts.foldl gbBufferStep []).length ≤ 10
    ∧ ((List.range 12).map (fun i => Turn.mk (toString (i + 1)) "" "")).foldl gbBufferStep []
        = ((List.range 12).map (fun i => Turn.mk (toString (i + 1)) "" "")).drop 2 := by
  have hinit : (init_state user_id user_name db conv).short_term_memory = [] := rfl
  have h1 :
      (appendAll status (init_state user_id user_name db conv, store) ts).1.short_term_memory
        = ts.rtake 5 := by
    rw [appendAll_short_term, hinit, foldl_pmBufferStep_nil]
  refine ⟨h1, ?_, foldl_gbBufferStep_nil ts, ?_, ?_⟩
  · rw [h1]
    exact length_rtake_le _ _
  · rw [foldl_gbBufferStep_nil]
    exact length_rtake_le _ _
  · rw [foldl_gbBufferStep_nil]
    simp only [List.rtake, List.length_map, List.length_range]

/-- **C2**: with the session environment unchanged (same store contents,
same database availability) and no intervening `add_to_short_term`, two
consecutive `recall_memories` calls with the same query return byte-identical
text; whenever the read completes, the first call memoizes its result in
`_cached_memories` and the second call returns the cached value. -/
theorem c2_recall_memoized (status : DbStatus) (s : PMState) (store : Store)
    (q : Option String) :
    (recall_memories status (recall_memories status s store q).2.1 store q).1
      = (recall_memories status s store q).1 := by
  cases hc : s.cached_memories with
  | some m => simp [recall_memories, hc]
  | none =>
    cases status with
    | down => simp [recall_memories, hc]
    | raises =>
      by_cases hdb : s.db_user_id.isNone <;> simp [recall_memories, hc, hdb]
    | ok =>
      by_cases hdb : s.db_user_id.isNone
      · simp [recall_memories, hc, hdb]
      · by_cases hp : (fetchPast s store).isEmpty
        · simp [recall_memories, hc, hdb, hp]
        · simp [recall_memories, hc, hdb, hp]

/-- **C3**: every `add_to_short_term` call resets `_cached_memories` to `None`
(the unpopulated state, not an extension of the old cache), and consequently a
following `recall_memories` on a reachable database issues a fresh read
against the persistent store. -/
theorem c3_append_clears_cache (status : DbStatus) (now : String) (s : PMState)
    (store store2 : Store) (u a : String) (q : Option String)
    (hdb : s.db_user_id.isSome) :
    (add_to_short_term status now s store u a).1.cached_memories = none
    ∧ (recall_memories .ok (add_to_short_term status now s store u a).1 store2 q).2.2
        = true := by
  refine ⟨rfl, ?_⟩
  obtain ⟨i, hi⟩ := Option.isSome_iff_exists.mp hdb
  have hs' : (add_to_short_term status now s store u a).1.db_user_id = some i := by
    simp [add_to_short_term, hi]
  have hnone : (add_to_short_term status now s store u a).1.cached_memories = none := rfl
  by_cases hp : (fetchPast (add_to_short_term status now s store u a).1 store2).isEmpty <;>
    simp [recall_memories, hnone, hs', hp]

/-- Witness for `c3_append_clears_cache` at a concrete instance. -/
theorem c3_append_clears_cache_witness :
    (add_to_short_term .ok "t0" (init_state "alice" none (some 1) (some "c1"))
        [] "hi" "hello").1.cached_memories = none
    ∧ (recall_memories .ok
        (add_to_short_term .ok "t0" (init_state "alice" none (some 1) (some "c1"))
          [] "hi" "hello").1 [] none).2.2 = true :=
  c3_append_clears_cache .ok "t0" (init_state "alice" none (some 1) (some "c1"))
    [] [] "hi" "hello" none (by decide)

/-- **C9**: once `_cached_memories` is populated, `recall_memories` returns the
cached text independently of the query argument (and even of the store
contents and database availability): recall is not query-sensitive after the
first completed call. -/
theorem c9_recall_query_insensitive (st1 st2 : DbStatus) (s : PMState)
    (store1 store2 : Store) (q1 q2 : Option String)
    (h : s.cached_memories.isSome) :
    (recall_memories st1 s store1 q1).1 = (recall_memories st2 s store2 q2).1 := by
  obtain ⟨m, hm⟩ := Option.isSome_iff_exists.mp h
  simp [recall_memories, hm]

/-- Witness for `c9_recall_query_insensitive` at a concrete populated state. -/
theorem c9_recall_query_insensitive_witness :
    (recall_memories .ok
        { user_name := "alice", db_user_id := some 1,
          current_conversation_id := some "c1", short_term_memory := [],
          cached_memories := some "remembered" } [] (some "q1")).1
      = (recall_memories .down
          { user_name := "alice", db_user_id := some 1,
            current_conversation_id := some "c1", short_term_memory := [],
            cached_memories := some "remembered" } [(String.mk ['c'], ⟨"user", "x"⟩)]
          (some "q2")).1 :=
  c9_recall_query_insensitive .ok .down
    { user_name := "alice", db_user_id := some 1,
      current_conversation_id := some "c1", short_term_memory := [],
      cached_memories := some "remembered" } [] [(String.mk ['c'], ⟨"user", "x"⟩)]
    (some "q1") (some "q2") (by decide)

/-- **C4**: two final transcripts with character-for-character identical text,
the first of which passes the guard of `on_user_transcribed`: the second
passes if and only if it arrives at least 2 seconds after the first; within
2 seconds it is discarded by the duplicate-transcription debounce. -/
theorem c4_duplicate_debounce (ctx : TransState) (q : String) (t1 t2 : ℚ)
    (h1 : (on_user_transcribed ctx q t1).2 = true) :
    (on_user_transcribed (on_user_transcribed ctx q t1).1 q t2).2 = true
      ↔ 2 ≤ t2 - t1 := by
  by_cases he : pyStrip q = ""
  · simp [on_user_transcribed, he] at h1
  · by_cases hdup : ctx.last_transcription = some (pyStrip q) ∧
        t1 - ctx.last_transcription_time < 2
    · simp [on_user_transcribed, he, hdup] at h1
    · have hfst : (on_user_transcribed ctx q t1).1
          = { last_transcription := some (pyStrip q), last_transcription_time := t1,
              user_msg := some (pyStrip q) } := by
        simp [on_user_transcribed, he, hdup]
      rw [hfst]
      by_cases hlt : t2 - t1 < 2
      · simp only [on_user_transcribed, he, if_false, hlt]
        constructor
        · intro hcontra
          simp [hlt] at hcontra
        · intro hge
          linarith
      · simp only [on_user_transcribed, he, if_false]
        constructor
        · intro _
          linarith
        · intro _
          simp [hlt]

/-- Witness for `c4_duplicate_debounce`: the same transcript arriving again
exactly 2 seconds later is accepted. -/
theorem c4_duplicate_debounce_witness :
    (on_user_transcribed (on_user_transcribed ⟨none, 0, none⟩ "hello" 0).1
        "hello" 2).2 = true :=
  (c4_duplicate_debounce ⟨none, 0, none⟩ "hello" 0 2 (by decide)).mpr (by norm_num)

/-- **C5**: for a user with zero prior stored messages outside the current
conversation and an unpopulated cache, `recall_memories` returns the empty
string for every query argument and every database outcome; the function is
total, so no error reaches the caller. -/
theorem c5_recall_new_user (status : DbStatus) (s : PMState) (store : Store)
    (q : Option String) (hc : s.cached_memories = none)
    (hf : fetchPast s store = []) :
    (recall_memories status s store q).1 = "" := by
  cases status with
  | down => simp [recall_memories, hc]
  | raises =>
    by_cases hdb : s.db_user_id.isNone <;> simp [recall_memories, hc, hdb]
  | ok =>
    by_cases hdb : s.db_user_id.isNone
    · simp [recall_memories, hc, hdb]
    · simp [recall_memories, hc, hdb, hf]

/-- Witness for `c5_recall_new_user`: a brand-new user with an empty store and
the query `"anything"` receives `""`. -/
theorem c5_recall_new_user_witness :
    (recall_memories .ok (init_state "bob" none (some 2) (some "c1")) []
        (some "anything")).1 = "" :=
  c5_recall_new_user .ok (init_state "bob" none (some 2) (some "c1")) []
    (some "anything") rfl rfl

/-- **C6**: when the store is unreachable (`get_db_connection()` returns
`None`), `recall_memories` returns empty text, and `add_to_short_term` leaves
the persistent store untouched while updating the in-memory short-term buffer
exactly as in the successful case and clearing the cache; both model
functions are total, matching the catch-all exception handling of the code. -/
theorem c6_store_unavailable (s : PMState) (store : Store) (q : Option String)
    (now u a : String) (hc : s.cached_memories = none) :
    (recall_memories .down s store q).1 = ""
    ∧ (add_to_short_term .down now s store u a).2 = store
    ∧ (add_to_short_term .down now s store u a).1.short_term_memory
        = (add_to_short_term .ok now s store u a).1.short_term_memory
    ∧ (add_to_short_term .down now s store u a).1.cached_memories = none := by
  exact ⟨by simp [recall_memories, hc], rfl, rfl, rfl⟩

/-- Witness for `c6_store_unavailable` at a concrete instance. -/
theorem c6_store_unavailable_witness :
    (recall_memories .down (init_state "eve" none (some 3) (some "c2"))
        [(String.mk ['d'], ⟨"user", "old"⟩)] none).1 = ""
    ∧ (add_to_short_term .down "t1" (init_state "eve" none (some 3) (some "c2"))
        [(String.mk ['d'], ⟨"user", "old"⟩)] "hi" "hello").2
      = [(String.mk ['d'], ⟨"user", "old"⟩)]
    ∧ (add_to_short_term .down "t1" (init_state "eve" none (some 3) (some "c2"))
        [(String.mk ['d'], ⟨"user", "old"⟩)] "hi" "hello").1.short_term_memory
      = (add_to_short_term .ok "t1" (init_state "eve" none (some 3) (some "c2"))
          [(String.mk ['d'], ⟨"user", "old"⟩)] "hi" "hello").1.short_term_memory
    ∧ (add_to_short_term .down "t1" (init_state "eve" none (some 3) (some "c2"))
        [(String.mk ['d'], ⟨"user", "old"⟩)] "hi" "hello").1.cached_memories
      = none :=
  c6_store_unavailable (init_state "eve" none (some 3) (some "c2"))
    [(String.mk ['d'], ⟨"user", "old"⟩)] none "t1" "hi" "hello" rfl

lemma string_foldl_eq (l : List String) :
    ∀ a : String, l.foldl (· ++ ·) a = a ++ String.join l := by
  induction l with
  | nil =>
    intro a
    exact (String.append_empty a).symm
  | cons b l ih =>
    intro a
    rw [List.foldl_cons, ih (a ++ b)]
    have hjoin : String.join (b :: l) = b ++ String.join l := by
      show List.foldl (· ++ ·) ("" ++ b) l = _
      rw [String.empty_append, ih b]
    rw [hjoin, String.append_assoc]

lemma formatMemories_eq (name : String) (msgs : List Msg) :
    formatMemories name msgs
      = "## Brief History with " ++ name ++ "\n\n"
        ++ String.join (msgs.map memoryLine) := by
  unfold formatMemories
  rw [← List.foldl_map memoryLine (· ++ ·), string_foldl_eq]

lemma fetchPast_reverse_rtake (s : PMState) (store : Store) :
    (fetchPast s store).reverse.rtake 10 = (otherMsgs s store).rtake 10 := by
  have h30 : (fetchPast s store).reverse = (otherMsgs s store).rtake 30 := by
    rw [fetchPast, List.rtake_eq_reverse_take_reverse]
  rw [h30, rtake_rtake _ 30 10 (by norm_num)]

/-- **C7**: on a cache miss with a working store, `recall_memories` considers
the rows of the user's other conversations capped at the 30 most recent
(`fetchPast` is the `ORDER BY … DESC LIMIT 30` result), keeps only the 10
most recent of those in chronological (oldest-first) order, renders each as
the bullet line `- **<Role>**: <content>` with the content truncated to 100
characters plus an ellipsis when it is longer, and prefixes the whole text
with a header naming the user. -/
theorem c7_recall_fetch_format (s : PMState) (store : Store) (q : Option String)
    (hc : s.cached_memories = none) (hdb : s.db_user_id.isSome)
    (hne : fetchPast s store ≠ []) :
    (recall_memories .ok s store q).1
      = "## Brief History with " ++ s.user_name ++ "\n\n"
        ++ String.join (((otherMsgs s store).rtake 10).map memoryLine)
    ∧ ((otherMsgs s store).rtake 10).length ≤ 10
    ∧ (fetchPast s store).length ≤ 30
    ∧ (∀ m : Msg, memoryLine m
        = "- **" ++ roleName m.role ++ "**: " ++ truncate100 m.content ++ "\n")
    ∧ (∀ c : String, 100 < c.length → truncate100 c = c.take 100 ++ "...")
    ∧ (∀ c : String, c.length ≤ 100 → truncate100 c = c) := by
  obtain ⟨i, hi⟩ := Option.isSome_iff_exists.mp hdb
  have hemp : (fetchPast s store).isEmpty = false := by
    cases hfp : (fetchPast s store) with
    | nil => exact absurd hfp hne
    | cons a l => rfl
  refine ⟨?_, length_rtake_le _ _, ?_, fun m => rfl, ?_, ?_⟩
  · have hmain : (recall_memories .ok s store q).1
        = formatMemories s.user_name ((fetchPast s store).reverse.rtake 10) := by
      simp [recall_memories, hc, hi, hemp]
    rw [hmain, fetchPast_reverse_rtake, formatMemories_eq]
  · rw [fetchPast]
    exact List.length_take_le _ _
  · intro c h
    simp only [truncate100]
    rw [if_pos h]
  · intro c h
    simp only [truncate100]
    rw [if_neg (by omega)]

/-- Witness for `c7_recall_fetch_format`: a user with two prior messages in
another conversation gets exactly the header plus two bullet lines. -/
theorem c7_recall_fetch_format_witness :
    (recall_memories .ok
        { user_name := "Ravi", db_user_id := some 1,
          current_conversation_id := some "cur", short_term_memory := [],
          cached_memories := none }
        [(String.mk ['o'], ⟨"user", "hello"⟩),
         (String.mk ['o'], ⟨"assistant", "hi there"⟩)] none).1
      = "## Brief History with " ++ "Ravi" ++ "\n\n"
        ++ String.join (((otherMsgs
            { user_name := "Ravi", db_user_id := some 1,
              current_conversation_id := some "cur", short_term_memory := [],
              cached_memories := none }
            [(String.mk ['o'], ⟨"user", "hello"⟩),
             (String.mk ['o'], ⟨"assistant", "hi there"⟩)]).rtake 10).map memoryLine) :=
  (c7_recall_fetch_format
    { user_name := "Ravi", db_user_id := some 1,
      current_conversation_id := some "cur", short_term_memory := [],
      cached_memories := none }
    [(String.mk ['o'], ⟨"user", "hello"⟩),
     (String.mk ['o'], ⟨"assistant", "hi there"⟩)] none rfl (by decide) (by decide)).1

/-- **C10**: an exception during the store read makes `recall_memories` return
`""` without memoizing it — the cache stays unpopulated and the very next
recall issues the read again — while the no-prior-messages outcome memoizes
the empty string, so every later recall returns `""` without reading the
store. -/
theorem c10_error_empty_not_memoized (s : PMState) (store : Store)
    (q : Option String) (hc : s.cached_memories = none)
    (hdb : s.db_user_id.isSome) :
    (recall_memories .raises s store q).1 = ""
    ∧ (recall_memories .raises s store q).2.1 = s
    ∧ (recall_memories .ok (recall_memories .raises s store q).2.1 store q).2.2 = true
    ∧ (fetchPast s store = [] →
        (recall_memories .ok s store q).2.1.cached_memories = some ""
        ∧ ∀ (st2 : DbStatus) (store2 : Store) (q2 : Option String),
            (recall_memories st2 (recall_memories .ok s store q).2.1 store2 q2).1 = ""
            ∧ (recall_memories st2 (recall_memories .ok s store q).2.1 store2 q2).2.2
                = false) := by
  obtain ⟨i, hi⟩ := Option.isSome_iff_exists.mp hdb
  have hr : recall_memories .raises s store q = ("", s, true) := by
    simp [recall_memories, hc, hi]
  refine ⟨by rw [hr], by rw [hr], ?_, ?_⟩
  · rw [hr]
    by_cases hp : (fetchPast s store).isEmpty <;> simp [recall_memories, hc, hi, hp]
  · intro hf
    have ho : recall_memories .ok s store q
        = ("", { s with cached_memories := some "" }, true) := by
      simp [recall_memories, hc, hi, hf]
    rw [ho]
    exact ⟨rfl, fun st2 store2 q2 => ⟨by simp [recall_memories], by simp [recall_memories]⟩⟩

/-- Witness for `c10_error_empty_not_memoized` at a concrete instance. -/
theorem c10_error_empty_not_memoized_witness :
    (recall_memories .raises (init_state "dan" none (some 4) (some "c3")) [] none).1 = ""
    ∧ (recall_memories .raises (init_state "dan" none (some 4) (some "c3")) [] none).2.1
      = init_state "dan" none (some 4) (some "c3")
    ∧ (recall_memories .ok
        (recall_memories .raises (init_state "dan" none (some 4) (some "c3")) [] none).2.1
        [] none).2.2 = true
    ∧ (fetchPast (init_state "dan" none (some 4) (some "c3")) [] = [] →
        (recall_memories .ok (init_state "dan" none (some 4) (some "c3")) [] none).2.1.cached_memories
          = some ""
        ∧ ∀ (st2 : DbStatus) (store2 : Store) (q2 : Option String),
            (recall_memories st2
              (recall_memories .ok (init_state "dan" none (some 4) (some "c3")) [] none).2.1
              store2 q2).1 = ""
            ∧ (recall_memories st2
                (recall_memories .ok (init_state "dan" none (some 4) (some "c3")) [] none).2.1
                store2 q2).2.2 = false) :=
  c10_error_empty_not_memoized (init_state "dan" none (some 4) (some "c3")) [] none
    rfl (by decide)

lemma recall_user_name (status : DbStatus) (s : PMState) (store : Store)
    (q : Option String) :
    (recall_memories status s store q).2.1.user_name = s.user_name := by
  cases hc : s.cached_memories with
  | some m => simp [recall_memories, hc]
  | none =>
    cases status with
    | down => simp [recall_memories, hc]
    | raises =>
      by_cases hdb : s.db_user_id.isNone <;> simp [recall_memories, hc, hdb]
    | ok =>
      by_cases hdb : s.db_user_id.isNone
      · simp [recall_memories, hc, hdb]
      · by_cases hp : (fetchPast s store).isEmpty <;>
          simp [recall_memories, hc, hdb, hp]

set_option maxRecDepth 40000 in
/-- **C8**: `get_memory_context_prompt` composes the rendered recent
short-term turns (at most 3, see `shortTermBlock`) and the `recall_memories`
result under a `# Memory for <user>` header (stripped), returns empty text
when both parts are empty, and after
`add_to_short_term("What is gravity?", "Gravity pulls objects together.")` on
a fresh instance its output contains a line with the user utterance and a
line with the assistant utterance. -/
theorem c8_context_prompt (status : DbStatus) (s : PMState) (store : Store)
    (q : Option String) :
    (shortTermBlock s = "" → (recall_memories status s store q).1 = "" →
      (get_memory_context_prompt status s store q).1 = "")
    ∧ ((recall_memories status s store q).1 ≠ "" ∨ shortTermBlock s ≠ "" →
      (get_memory_context_prompt status s store q).1
        = pyStrip ("# Memory for " ++ s.user_name ++ "\n" ++ shortTermBlock s
            ++ "\n" ++ (recall_memories status s store q).1))
    ∧ containsStr
        (get_memory_context_prompt .ok
          (add_to_short_term .ok "t0" (init_state "arya" none (some 1) (some "c0"))
            [] "What is gravity?" "Gravity pulls objects together.").1
          (add_to_short_term .ok "t0" (init_state "arya" none (some 1) (some "c0"))
            [] "What is gravity?" "Gravity pulls objects together.").2
          none).1
        "- User: What is gravity?"
    ∧ containsStr
        (get_memory_context_prompt .ok
          (add_to_short_term .ok "t0" (init_state "arya" none (some 1) (some "c0"))
            [] "What is gravity?" "Gravity pulls objects together.").1
          (add_to_short_term .ok "t0" (init_state "arya" none (some 1) (some "c0"))
            [] "What is gravity?" "Gravity pulls objects together.").2
          none).1
        "- Gyanika: Gravity pulls objects together." := by
  refine ⟨?_, ?_, by decide, by decide⟩
  · intro h1 h2
    simp [get_memory_context_prompt, h1, h2]
  · intro hor
    have huser := recall_user_name status s store q
    simp only [get_memory_context_prompt]
    rw [if_pos hor, huser]

set_option maxRecDepth 40000 in
/-- Witness for `c8_context_prompt`: a fresh instance with no history yields
the empty prompt, and after one turn the prompt is the stripped composition
of the header, the short-term block and the recall text. -/
theorem c8_context_prompt_witness :
    (get_memory_context_prompt .ok (init_state "zoe" none (some 1) (some "c0"))
        [] none).1 = ""
    ∧ (get_memory_context_prompt .ok
        (add_to_short_term .ok "t0" (init_state "arya" none (some 1) (some "c0"))
          [] "What is gravity?" "Gravity pulls objects together.").1
        (add_to_short_term .ok "t0" (init_state "arya" none (some 1) (some "c0"))
          [] "What is gravity?" "Gravity pulls objects together.").2
        none).1
      = pyStrip ("# Memory for "
          ++ (add_to_short_term .ok "t0" (init_state "arya" none (some 1) (some "c0"))
              [] "What is gravity?" "Gravity pulls objects together.").1.user_name
          ++ "\n"
          ++ shortTermBlock
              (add_to_short_term .ok "t0" (init_state "arya" none (some 1) (some "c0"))
                [] "What is gravity?" "Gravity pulls objects together.").1
          ++ "\n"
          ++ (recall_memories .ok
              (add_to_short_term .ok "t0" (init_state "arya" none (some 1) (some "c0"))
                [] "What is gravity?" "Gravity pulls objects together.").1
              (add_to_short_term .ok "t0" (init_state "arya" none (some 1) (some "c0"))
                [] "What is gravity?" "Gravity pulls objects together.").2
              none).1) :=
  ⟨(c8_context_prompt .ok (init_state "zoe" none (some 1) (some "c0")) [] none).1
      rfl (by decide),
   (c8_context_prompt .ok
      (add_to_short_term .ok "t0" (init_state "arya" none (some 1) (some "c0"))
        [] "What is gravity?" "Gravity pulls objects together.").1
      (add_to_short_term .ok "t0" (init_state "arya" none (some 1) (some "c0"))
        [] "What is gravity?" "Gravity pulls objects together.").2
      none).2.1 (by decide)⟩

end Gyanika
